import Mathlib

/-!
# DAO governance agent (`frontend/src/main.jsx`): view state and async workflow

A shallow embedding of the React component `DAOGovernanceAgent`.

* The eight `useState` cells become the record `State`.
* Every `async` handler becomes a program in the monad `Async`: a tree of
  synchronous setter calls and suspensions on a collaborator call.  The
  `do` blocks below follow the handlers of the source line by line.
* `Async.run` executes one handler to completion against the answers of the
  collaborator and records the calls it issued.
* `Machine` holds the view state together with the suspended handlers; `step`
  is the event loop: the mount effect, clicks and edits that the rendered JSX
  allows, and the settling of an outstanding call.

Every setter of the source writes an absolute value (none is a functional
update) and no handler reads state after its first `await`, so applying each
setter at the moment it is called gives the state React commits.
-/

namespace DAOGovernanceAgent

/-! ## Data model -/

/-- A proposal record as returned by `getProposals` (fields of lines 18-27). -/
structure Proposal where
  id : Nat
  title : String
  description : String
  proposer : String
  votesFor : Nat
  votesAgainst : Nat
  status : String
  timestamp : Int
deriving DecidableEq, Repr

/-- The object kept in the `votingStats` cell (line 11). -/
structure VotingStats where
  totalProposals : Nat
  activeProposals : Nat
  totalVotes : Nat
deriving DecidableEq, Repr

/-- The object kept in the `newProposal` cell (line 8). -/
structure Draft where
  title : String
  description : String
  proposer : String
deriving DecidableEq, Repr

/-- The eight `useState` cells of the component (lines 5-12). -/
structure State where
  proposals : List Proposal
  loading : Bool
  activeTab : String
  newProposal : Draft
  aiAnalysis : String
  aiRecommendations : String
  votingStats : VotingStats
  selectedProposal : Option Nat
deriving DecidableEq, Repr

/-- The initial values passed to `useState` (lines 5-12). -/
def State.initial : State :=
  { proposals := []
    loading := false
    activeTab := "proposals"
    newProposal := { title := "", description := "", proposer := "" }
    aiAnalysis := ""
    aiRecommendations := ""
    votingStats := { totalProposals := 0, activeProposals := 0, totalVotes := 0 }
    selectedProposal := none }

/-! ## Collaborator calls -/

/-- The reason carried by a rejected call; the handlers only log it. -/
abbrev Err := String

/-- A call on the backend object, with its arguments (lines 16, 41, 47, 52, 72, 91). -/
inductive Call where
  | getProposals
  | createProposal (title description proposer : String)
  | vote (proposalId : Nat) (voter : String) (voteChoice : Bool)
  | analyzeProposal (proposalId : Nat)
  | getGovernanceRecommendations
  | getVotingStats
deriving DecidableEq, Repr

/-- The type of the value a call resolves with. -/
def Call.Result : Call → Type
  | .getProposals => List Proposal
  | .createProposal _ _ _ => Nat
  | .vote _ _ _ => Bool
  | .analyzeProposal _ => String
  | .getGovernanceRecommendations => String
  | .getVotingStats => VotingStats

/-- The answers of the collaborator: each call either resolves with a value or
rejects with a reason. -/
def Backend := (c : Call) → Except Err c.Result

/-! ## Handlers as programs -/

/-- The body of an `async` function: it returns, throws, calls a setter and goes
on, or suspends on a collaborator call and goes on with its outcome. -/
inductive Async (α : Type) : Type where
  | done (a : α)
  | throw (e : Err)
  | update (f : State → State) (k : Async α)
  | await (c : Call) (k : Except Err c.Result → Async α)

namespace Async

/-- Sequencing: the rest of the function body after a statement. -/
def bind {α β : Type} : Async α → (α → Async β) → Async β
  | done a, g => g a
  | throw e, _ => throw e
  | update f k, g => update f (bind k g)
  | await c k, g => await c (fun r => bind (k r) g)

/-- The statement `try { body } catch (error) { handler }`. -/
def tryCatch {α : Type} : Async α → (Err → Async α) → Async α
  | done a, _ => done a
  | throw e, h => h e
  | update f k, h => update f (tryCatch k h)
  | await c k, h => await c (fun r => tryCatch (k r) h)

instance : Monad Async where
  pure := Async.done
  bind := Async.bind

instance : MonadExcept Err Async where
  throw := Async.throw
  tryCatch := Async.tryCatch

/-- The expression `await mockBackend.c(...)`: a rejection is thrown at the call site. -/
def call (c : Call) : Async c.Result :=
  await c (fun r => match r with
    | .ok v => done v
    | .error e => throw e)

end Async

/-- The setter `setProposals`. -/
def setProposals (v : List Proposal) : Async Unit :=
  .update (fun s => { s with proposals := v }) (.done ())

/-- The setter `setLoading`. -/
def setLoading (v : Bool) : Async Unit :=
  .update (fun s => { s with loading := v }) (.done ())

/-- The setter `setActiveTab`. -/
def setActiveTab (v : String) : Async Unit :=
  .update (fun s => { s with activeTab := v }) (.done ())

/-- The setter `setNewProposal`. -/
def setNewProposal (v : Draft) : Async Unit :=
  .update (fun s => { s with newProposal := v }) (.done ())

/-- The setter `setAiAnalysis`. -/
def setAiAnalysis (v : String) : Async Unit :=
  .update (fun s => { s with aiAnalysis := v }) (.done ())

/-- The setter `setAiRecommendations`. -/
def setAiRecommendations (v : String) : Async Unit :=
  .update (fun s => { s with aiRecommendations := v }) (.done ())

/-- The setter `setVotingStats`. -/
def setVotingStats (v : VotingStats) : Async Unit :=
  .update (fun s => { s with votingStats := v }) (.done ())

/-- The setter `setSelectedProposal`. -/
def setSelectedProposal (v : Option Nat) : Async Unit :=
  .update (fun s => { s with selectedProposal := v }) (.done ())

/-- The call `console.error(message, error)`: it writes to the console only and
touches no cell of the component. -/
def consoleError (_message : String) (_error : Err) : Async Unit :=
  pure ()

/-- The function `loadProposals` (lines 101-110). -/
def loadProposals : Async Unit := do
  setLoading true
  try
    let data ← Async.call .getProposals
    setProposals data
  catch error =>
    consoleError "Failed to load proposals:" error
  setLoading false

/-- The function `loadVotingStats` (lines 112-119). -/
def loadVotingStats : Async Unit := do
  try
    let stats ← Async.call .getVotingStats
    setVotingStats stats
  catch error =>
    consoleError "Failed to load voting stats:" error

/-- The function `handleCreateProposal` (lines 121-134).  The argument is the
value of `newProposal` in the render whose closure the handler belongs to; the
fields are strings, and `!field` holds exactly for the empty string. -/
def handleCreateProposal (newProposal : Draft) : Async Unit := do
  if newProposal.title = "" ∨ newProposal.description = "" ∨ newProposal.proposer = "" then
    return
  setLoading true
  try
    let _ ← Async.call (.createProposal newProposal.title newProposal.description newProposal.proposer)
    setNewProposal { title := "", description := "", proposer := "" }
    loadProposals
    setActiveTab "proposals"
  catch error =>
    consoleError "Failed to create proposal:" error
  setLoading false

/-- The function `handleVote` (lines 136-145). -/
def handleVote (proposalId : Nat) (voteChoice : Bool) : Async Unit := do
  setLoading true
  try
    let _ ← Async.call (.vote proposalId "current-user.icp" voteChoice)
    loadProposals
  catch error =>
    consoleError "Failed to vote:" error
  setLoading false

/-- The function `handleAnalyzeProposal` (lines 147-158). -/
def handleAnalyzeProposal (proposalId : Nat) : Async Unit := do
  setLoading true
  try
    let analysis ← Async.call (.analyzeProposal proposalId)
    setAiAnalysis analysis
    setSelectedProposal (some proposalId)
    setActiveTab "ai-analysis"
  catch error =>
    consoleError "Failed to analyze proposal:" error
  setLoading false

/-- The function `handleGetRecommendations` (lines 160-170). -/
def handleGetRecommendations : Async Unit := do
  setLoading true
  try
    let recommendations ← Async.call .getGovernanceRecommendations
    setAiRecommendations recommendations
    setActiveTab "ai-recommendations"
  catch error =>
    consoleError "Failed to get recommendations:" error
  setLoading false

/-! ## Running one handler to completion -/

/-- What a finished handler leaves behind: the state, the calls it issued in
order, and whether it returned or threw. -/
structure Outcome where
  state : State
  calls : List Call
  threw : Bool

/-- Runs a handler from state `s` until it finishes; every call it awaits is
answered by `backend` and appended to the trace `t`. -/
def Async.exec (backend : Backend) : Async Unit → State → List Call → Outcome
  | .done _, s, t => { state := s, calls := t, threw := false }
  | .throw _, s, t => { state := s, calls := t, threw := true }
  | .update f k, s, t => Async.exec backend k (f s) t
  | .await c k, s, t => Async.exec backend (k (backend c)) s (t ++ [c])

/-- Runs a handler from state `s` with an empty trace. -/
def Async.run (backend : Backend) (p : Async Unit) (s : State) : Outcome :=
  Async.exec backend p s []

/-! ## The event loop: handlers in flight -/

/-- The six workflow operations a handler in flight belongs to. -/
inductive Operation where
  | loadProposals
  | loadVotingStats
  | create
  | vote
  | analyze
  | recommend
deriving DecidableEq, Repr

/-- A handler suspended at an `await`: the operation that was triggered, the
collaborator call it waits for, and the rest of its body. -/
structure Pending where
  op : Operation
  call : Call
  resume : Except Err call.Result → Async Unit

/-- Runs the synchronous part of a handler body, up to its next `await` or its
end.  The result is the state reached and the suspended handler, if any.  A
nested `await loadProposals()` resumes its caller in a microtask, before any
click or network completion is dispatched, so the caller's continuation runs in
the same step as the end of the nested function. -/
def Async.start (op : Operation) : Async Unit → State → State × List Pending
  | .done _, s => (s, [])
  | .throw _, s => (s, [])
  | .update f k, s => Async.start op k (f s)
  | .await c k, s => (s, [{ op := op, call := c, resume := k }])

/-- The component at an instant between two tasks of the event loop: its state
cells, whether the mount effect has run, and the handlers in flight. -/
structure Machine where
  view : State
  mounted : Bool
  inflight : List Pending

/-- The component right after its first render. -/
def Machine.initial : Machine :=
  { view := State.initial, mounted := false, inflight := [] }

/-- What can happen to the component: the mount effect, a click on one of the
buttons, an edit of one of the three draft inputs, or the settling of the call
an in-flight handler waits for. -/
inductive Event where
  | mount
  | tabProposals
  | tabCreate
  | aiInsights
  | tabAnalysis
  | voteYes (proposalId : Nat)
  | voteNo (proposalId : Nat)
  | aiAnalyze (proposalId : Nat)
  | editTitle (value : String)
  | editDescription (value : String)
  | editProposer (value : String)
  | createProposal
  | settle (index : Nat) (answer : Backend)

/-- Applies a synchronous click or edit handler to the view. -/
def Machine.sync (m : Machine) (f : State → State) : Machine :=
  { m with view := f m.view }

/-- Starts a handler as operation `op`: its synchronous part runs now, the
rest joins the handlers in flight. -/
def Machine.launch (m : Machine) (op : Operation) (p : Async Unit) : Machine :=
  { m with view := (p.start op m.view).1, inflight := m.inflight ++ (p.start op m.view).2 }

/-- Is a proposal card with this id rendered (lines 260, 269)? -/
def State.showsProposal (s : State) (proposalId : Nat) : Bool :=
  decide (s.activeTab = "proposals") && s.proposals.any (fun p => p.id == proposalId)

/-- The value of the `disabled` attribute of the create button (line 386). -/
def State.createDisabled (s : State) : Bool :=
  s.loading || decide (s.newProposal.title = "") || decide (s.newProposal.description = "")
    || decide (s.newProposal.proposer = "")

/-- One task of the event loop.  `none` means the event cannot happen in `m`:
the effect has already run, the button or input is not rendered or is disabled,
or no handler is in flight at that index.  React runs the mount effect before it
dispatches an input event, so clicks and edits need `mounted`; a handler reads
the cells of the latest render, which are those of `m.view`. -/
def step (m : Machine) : Event → Option Machine
  -- useEffect(() => { loadProposals(); loadVotingStats(); }, [])  (lines 96-99)
  | .mount =>
    if m.mounted then none
    else some (({ m with mounted := true }.launch .loadProposals loadProposals).launch
      .loadVotingStats loadVotingStats)
  -- navigation buttons (lines 212-255): always rendered, no `disabled`
  | .tabProposals =>
    if m.mounted then some (m.sync fun s => { s with activeTab := "proposals" }) else none
  | .tabCreate =>
    if m.mounted then some (m.sync fun s => { s with activeTab := "create" }) else none
  | .aiInsights =>
    if m.mounted then some (m.launch .recommend handleGetRecommendations) else none
  | .tabAnalysis =>
    if m.mounted then some (m.sync fun s => { s with activeTab := "ai-analysis" }) else none
  -- buttons of a proposal card (lines 319-340): disabled={loading}
  | .voteYes proposalId =>
    if m.mounted && m.view.showsProposal proposalId && !m.view.loading then
      some (m.launch .vote (handleVote proposalId true))
    else none
  | .voteNo proposalId =>
    if m.mounted && m.view.showsProposal proposalId && !m.view.loading then
      some (m.launch .vote (handleVote proposalId false))
    else none
  | .aiAnalyze proposalId =>
    if m.mounted && m.view.showsProposal proposalId && !m.view.loading then
      some (m.launch .analyze (handleAnalyzeProposal proposalId))
    else none
  -- inputs of the create tab (lines 353-381)
  | .editTitle value =>
    if m.mounted && decide (m.view.activeTab = "create") then
      some (m.sync fun s => { s with newProposal := { s.newProposal with title := value } })
    else none
  | .editDescription value =>
    if m.mounted && decide (m.view.activeTab = "create") then
      some (m.sync fun s => { s with newProposal := { s.newProposal with description := value } })
    else none
  | .editProposer value =>
    if m.mounted && decide (m.view.activeTab = "create") then
      some (m.sync fun s => { s with newProposal := { s.newProposal with proposer := value } })
    else none
  -- create button (lines 384-390)
  | .createProposal =>
    if m.mounted && decide (m.view.activeTab = "create") && !m.view.createDisabled then
      some (m.launch .create (handleCreateProposal m.view.newProposal))
    else none
  -- the call awaited by the handler at `index` resolves or rejects
  | .settle index answer =>
    match m.inflight.get? index with
    | none => none
    | some p =>
      some ({ m with inflight := m.inflight.eraseIdx index }.launch p.op (p.resume (answer p.call)))

/-- Runs a sequence of events; `none` if one of them cannot happen. -/
def steps (m : Machine) : List Event → Option Machine
  | [] => some m
  | e :: es => (step m e).bind fun m' => steps m' es

/-- The states the component can be in: the initial one, and every state one
event away from a reachable state.  `allowed m e` restricts which events the
environment takes in which state; `fun _ _ => True` restricts nothing. -/
inductive Reachable (allowed : Machine → Event → Prop) : Machine → Prop where
  | initial : Reachable allowed Machine.initial
  | next {m m' : Machine} (e : Event) :
      Reachable allowed m → allowed m e → step m e = some m' → Reachable allowed m'

/-- Every event is allowed whenever the rendered component enables it. -/
def anyEvent : Machine → Event → Prop :=
  fun _ _ => True

/-- The number of workflow operations in flight. -/
def Machine.inFlight (m : Machine) : Nat :=
  m.inflight.length

/-! ## Derived view helpers -/

/-- The function `formatTimeAgo` (lines 172-180); `now` is the value of
`Date.now()`.  Timestamps are integers, on which `Math.floor(x / k)` is floored
division and `%` is the remainder with the sign of the dividend. -/
def formatTimeAgo (now timestamp : Int) : String :=
  let diff := now - timestamp
  let days := Int.fdiv diff 86400000
  let hours := Int.fdiv (Int.tmod diff 86400000) 3600000
  if days > 0 then toString days ++ " day" ++ (if days > 1 then "s" else "") ++ " ago"
  else if hours > 0 then toString hours ++ " hour" ++ (if hours > 1 then "s" else "") ++ " ago"
  else "Just now"

/-- The values the vote-ratio expression can take: `NaN`, `Infinity`, or a
finite number, kept here as the exact quotient. -/
inductive JSNumber where
  | nan
  | infinity
  | finite (value : ℚ)
deriving DecidableEq

/-- The JavaScript quotient `a / b` of two non-negative integers: `0 / 0` is
`NaN` and `a / 0` with `a > 0` is `Infinity`. -/
def JSNumber.quotient (a b : Nat) : JSNumber :=
  if b = 0 then (if a = 0 then .nan else .infinity) else .finite ((a : ℚ) / (b : ℚ))

/-- The JavaScript product `x * k` with a non-negative integer `k`. -/
def JSNumber.times (x : JSNumber) (k : Nat) : JSNumber :=
  match x with
  | .nan => .nan
  | .infinity => if k = 0 then .nan else .infinity
  | .finite q => .finite (q * (k : ℚ))

/-- The number interpolated into the `width` of the vote progress bar
(line 311): `(votesFor / (votesFor + votesAgainst)) * 100`, which the template
follows with a percent sign. -/
def voteBarPercent (proposal : Proposal) : JSNumber :=
  (JSNumber.quotient proposal.votesFor (proposal.votesFor + proposal.votesAgainst)).times 100

/-! ## The simulated backend -/

/-- The text returned by `mockBackend.analyzeProposal` (lines 54-69). -/
def mockAnalysisText (proposalId : Nat) : String :=
  "AI Analysis for Proposal " ++ toString proposalId ++ ":\n\n" ++
  "**Benefits:**\n" ++
  "- Could accelerate ecosystem development\n" ++
  "- Provides clear funding mechanism for developers\n" ++
  "- Aligns with DAO\x27s growth objectives\n\n" ++
  "**Risks:**\n" ++
  "- Large treasury allocation might impact token value\n" ++
  "- Need robust oversight mechanisms\n" ++
  "- Potential for fund misuse without proper governance\n\n" ++
  "**Recommendations:**\n" ++
  "- Implement milestone-based funding releases\n" ++
  "- Establish clear success metrics\n" ++
  "- Consider smaller initial allocation with expansion based on results"

/-- The text returned by `mockBackend.getGovernanceRecommendations` (lines 74-88). -/
def mockRecommendationsText : String :=
  "Current Governance Recommendations:\n\n" ++
  "**Priority Items:**\n" ++
  "1. The treasury allocation proposal shows strong support - consider fast-tracking\n" ++
  "2. Token distribution proposal is controversial - needs more community discussion\n\n" ++
  "**Strategic Insights:**\n" ++
  "- Both proposals impact tokenomics significantly\n" ++
  "- Consider combining proposals for holistic approach\n" ++
  "- Community sentiment suggests growth-focused priorities\n\n" ++
  "**Action Items:**\n" ++
  "- Schedule community call for token distribution debate\n" ++
  "- Create detailed implementation timeline for treasury allocation\n" ++
  "- Consider governance parameter adjustments for better participation"

/-- The list returned by `mockBackend.getProposals` (lines 17-38); `now` is the
value of `Date.now()`. -/
def mockProposals (now : Int) : List Proposal :=
  [ { id := 0
      title := "Increase Treasury Allocation for Development"
      description := "Proposal to allocate 50,000 ICP tokens from treasury for dApp development grants"
      proposer := "alice.icp"
      votesFor := 15
      votesAgainst := 3
      status := "active"
      timestamp := now - 86400000 },
    { id := 1
      title := "Implement New Governance Token Distribution"
      description := "Change the token distribution mechanism to reward long-term holders"
      proposer := "bob.icp"
      votesFor := 8
      votesAgainst := 12
      status := "active"
      timestamp := now - 172800000 } ]

/-- The object `mockBackend` (lines 15-94).  `now` is the value of `Date.now()`
and `roll` the value of `Math.floor(Math.random() * 1000)`; none of its methods
rejects. -/
def mockBackend (now : Int) (roll : Fin 1000) : Backend
  | .getProposals => .ok (mockProposals now)
  | .createProposal _ _ _ => .ok roll.val
  | .vote _ _ _ => .ok true
  | .analyzeProposal proposalId => .ok (mockAnalysisText proposalId)
  | .getGovernanceRecommendations => .ok mockRecommendationsText
  | .getVotingStats => .ok { totalProposals := 2, activeProposals := 2, totalVotes := 38 }

/-! ## Vocabulary of the properties -/

/-- The data and navigation cells of the state, in the order `proposals`,
`votingStats`, `aiAnalysis`, `aiRecommendations`, `selectedProposal`,
`newProposal`, `activeTab`: every cell except `loading`. -/
def State.snapshot (s : State) :
    List Proposal × VotingStats × String × String × Option Nat × Draft × String :=
  (s.proposals, s.votingStats, s.aiAnalysis, s.aiRecommendations, s.selectedProposal,
    s.newProposal, s.activeTab)

/-- A draft whose three fields are all non-empty: the guard of line 122 lets it pass. -/
def Draft.complete (d : Draft) : Prop :=
  d.title ≠ "" ∧ d.description ≠ "" ∧ d.proposer ≠ ""

instance (d : Draft) : Decidable d.complete :=
  inferInstanceAs (Decidable (_ ∧ _ ∧ _))

/-- A collaborator that rejects every call. -/
def failingBackend : Backend :=
  fun _ => .error "unavailable"

/-- A collaborator whose `getProposals` rejects while every other call answers
as the simulated backend does. -/
def reloadFailingBackend : Backend
  | .getProposals => .error "unavailable"
  | c => mockBackend 5 7 c

/-- A state with data in every cell, for evaluating the handlers on. -/
def State.sample : State :=
  { proposals := mockProposals 1700000000000
    loading := false
    activeTab := "create"
    newProposal := { title := "Fund audits", description := "Pay for two audits", proposer := "carol.icp" }
    aiAnalysis := "earlier analysis"
    aiRecommendations := "earlier recommendations"
    votingStats := { totalProposals := 2, activeProposals := 2, totalVotes := 38 }
    selectedProposal := some 1 }

/-- The component holding cells `s` before its mount effect has run. -/
def Machine.fresh (s : State) : Machine :=
  { view := s, mounted := false, inflight := [] }

/-- The two ways the startup load sequence can run to completion.  The mount
effect leaves `loadProposals` in flight at index 0 and `loadVotingStats` at
index 1; in the first run `getProposals` settles first (answered by `bp`), in
the second `getVotingStats` settles first (answered by `bs`). -/
def startupRuns (bp bs : Backend) : List (List Event) :=
  [[.mount, .settle 0 bp, .settle 0 bs], [.mount, .settle 1 bs, .settle 0 bp]]

/-- The pair `(votesFor, votesAgainst)` of a proposal. -/
def Proposal.tally (p : Proposal) : Nat × Nat :=
  (p.votesFor, p.votesAgainst)

/-- Does the operation's handler write `loading`?  All do except
`loadVotingStats` (lines 112-119). -/
def Operation.setsLoading : Operation → Bool
  | .loadVotingStats => false
  | _ => true

/-- The number of handlers in flight that belong to an operation writing `loading`. -/
def Machine.gatedInFlight (m : Machine) : Nat :=
  m.inflight.countP (fun p => p.op.setsLoading)

/-- The number of `loadVotingStats` handlers in flight. -/
def Machine.statsInFlight (m : Machine) : Nat :=
  m.inflight.countP (fun p => !p.op.setsLoading)

/-- The restriction on the environment under which the gate is studied: the
AI Insights button, the one trigger without `disabled={loading}`, is clicked
only while `loading` is false.  Every other event is unrestricted. -/
def insightsWhenIdle : Machine → Event → Prop :=
  fun m e => e = .aiInsights → m.view.loading = false

/-- A suspended handler that, whatever the outcome of its call, runs to its end
and leaves `loading` false. -/
def Pending.Finishes (p : Pending) : Prop :=
  ∀ (r : Except Err p.call.Result) (s : State),
    ((p.resume r).start p.op s).2 = [] ∧ ((p.resume r).start p.op s).1.loading = false

/-- A suspended handler that, whatever the outcome of its call, either runs to
its end leaving `loading` false, or suspends once more with `loading` true on a
call after which it finishes. -/
def Pending.Settles (p : Pending) : Prop :=
  ∀ (r : Except Err p.call.Result) (s : State),
    (((p.resume r).start p.op s).2 = [] ∧ ((p.resume r).start p.op s).1.loading = false) ∨
    (∃ q : Pending, ((p.resume r).start p.op s).2 = [q] ∧ q.op = p.op ∧ q.Finishes ∧
      ((p.resume r).start p.op s).1.loading = true)

/-- A suspended handler that, whatever the outcome of its call, runs to its end
without changing `loading`. -/
def Pending.Neutral (p : Pending) : Prop :=
  ∀ (r : Except Err p.call.Result) (s : State),
    ((p.resume r).start p.op s).2 = [] ∧ ((p.resume r).start p.op s).1.loading = s.loading

/-- The inductive invariant behind the gate. -/
structure GateInvariant (m : Machine) : Prop where
  unmounted : m.mounted = false → m.inflight = []
  gated : ∀ p ∈ m.inflight, p.op.setsLoading = true → p.Settles
  background : ∀ p ∈ m.inflight, p.op.setsLoading = false → p.Neutral
  atMostOne : m.gatedInFlight ≤ 1
  loading_iff : m.view.loading = true ↔ m.gatedInFlight = 1
  statsAtMostOne : m.statsInFlight ≤ 1

/-! ## Unfolding the handler programs -/

@[simp] theorem Async.bind_eq {α β : Type} (x : Async α) (g : α → Async β) :
    (x >>= g) = Async.bind x g := rfl

@[simp] theorem Async.pure_eq {α : Type} (a : α) : (pure a : Async α) = Async.done a := rfl

@[simp] theorem Async.tryCatch_eq {α : Type} (x : Async α) (h : Err → Async α) :
    (tryCatch x h) = Async.tryCatch x h := rfl

/-- A finished run of `loadProposals`: one `getProposals` call; the list is
stored when it resolves, and `loading` ends false either way. -/
theorem loadProposals_run (b : Backend) (s : State) :
    loadProposals.run b s =
      { state := match b .getProposals with
          | .ok data => { s with proposals := data, loading := false }
          | .error _ => { s with loading := false }
        calls := [.getProposals]
        threw := false } := by
  simp only [loadProposals, Async.run, Async.bind_eq, Async.tryCatch_eq, Async.pure_eq,
    Async.call, setLoading, setProposals, consoleError, Async.bind, Async.tryCatch, Async.exec]
  cases b .getProposals <;> simp [Async.exec, Async.bind, Async.tryCatch]

theorem loadVotingStats_run (b : Backend) (s : State) :
    loadVotingStats.run b s =
      { state := match b .getVotingStats with
          | .ok stats => { s with votingStats := stats }
          | .error _ => s
        calls := [.getVotingStats]
        threw := false } := by
  simp only [loadVotingStats, Async.run, Async.bind_eq, Async.tryCatch_eq, Async.pure_eq,
    Async.call, setVotingStats, consoleError, Async.bind, Async.tryCatch, Async.exec]
  cases b .getVotingStats <;> simp [Async.exec, Async.bind, Async.tryCatch]

theorem handleVote_run (b : Backend) (s : State) (proposalId : Nat) (voteChoice : Bool) :
    (handleVote proposalId voteChoice).run b s =
      match b (.vote proposalId "current-user.icp" voteChoice) with
      | .error _ =>
        { state := { s with loading := false }
          calls := [.vote proposalId "current-user.icp" voteChoice]
          threw := false }
      | .ok _ =>
        { state := match b .getProposals with
            | .ok data => { s with proposals := data, loading := false }
            | .error _ => { s with loading := false }
          calls := [.vote proposalId "current-user.icp" voteChoice, .getProposals]
          threw := false } := by
  simp only [handleVote, loadProposals, Async.run, Async.bind_eq, Async.tryCatch_eq, Async.pure_eq,
    Async.call, setLoading, setProposals, consoleError, Async.bind, Async.tryCatch, Async.exec]
  cases b (.vote proposalId "current-user.icp" voteChoice) <;>
    simp [Async.exec, Async.bind, Async.tryCatch]
  cases b .getProposals <;> simp [Async.exec, Async.bind, Async.tryCatch]

theorem handleAnalyzeProposal_run (b : Backend) (s : State) (proposalId : Nat) :
    (handleAnalyzeProposal proposalId).run b s =
      { state := match b (.analyzeProposal proposalId) with
          | .ok analysis =>
            { s with aiAnalysis := analysis, selectedProposal := some proposalId,
                     activeTab := "ai-analysis", loading := false }
          | .error _ => { s with loading := false }
        calls := [.analyzeProposal proposalId]
        threw := false } := by
  simp only [handleAnalyzeProposal, Async.run, Async.bind_eq, Async.tryCatch_eq, Async.pure_eq,
    Async.call, setLoading, setAiAnalysis, setSelectedProposal, setActiveTab, consoleError,
    Async.bind, Async.tryCatch, Async.exec]
  cases b (.analyzeProposal proposalId) <;> simp [Async.exec, Async.bind, Async.tryCatch]

theorem handleGetRecommendations_run (b : Backend) (s : State) :
    handleGetRecommendations.run b s =
      { state := match b .getGovernanceRecommendations with
          | .ok recommendations =>
            { s with aiRecommendations := recommendations, activeTab := "ai-recommendations",
                     loading := false }
          | .error _ => { s with loading := false }
        calls := [.getGovernanceRecommendations]
        threw := false } := by
  simp only [handleGetRecommendations, Async.run, Async.bind_eq, Async.tryCatch_eq, Async.pure_eq,
    Async.call, setLoading, setAiRecommendations, setActiveTab, consoleError,
    Async.bind, Async.tryCatch, Async.exec]
  cases b .getGovernanceRecommendations <;> simp [Async.exec, Async.bind, Async.tryCatch]

theorem handleCreateProposal_run_incomplete (b : Backend) (s : State) (d : Draft)
    (h : d.title = "" ∨ d.description = "" ∨ d.proposer = "") :
    (handleCreateProposal d).run b s = { state := s, calls := [], threw := false } := by
  simp [handleCreateProposal, Async.run, h, Async.exec]

theorem handleCreateProposal_run_complete (b : Backend) (s : State) (d : Draft)
    (h : ¬ (d.title = "" ∨ d.description = "" ∨ d.proposer = "")) :
    (handleCreateProposal d).run b s =
      match b (.createProposal d.title d.description d.proposer) with
      | .error _ =>
        { state := { s with loading := false }
          calls := [.createProposal d.title d.description d.proposer]
          threw := false }
      | .ok _ =>
        { state := match b .getProposals with
            | .ok data =>
              { s with newProposal := { title := "", description := "", proposer := "" },
                       proposals := data, activeTab := "proposals", loading := false }
            | .error _ =>
              { s with newProposal := { title := "", description := "", proposer := "" },
                       activeTab := "proposals", loading := false }
          calls := [.createProposal d.title d.description d.proposer, .getProposals]
          threw := false } := by
  simp only [handleCreateProposal, loadProposals, Async.run, Async.bind_eq, Async.tryCatch_eq,
    Async.pure_eq, Async.call, setLoading, setProposals, setNewProposal, setActiveTab, consoleError,
    Async.bind, Async.tryCatch, Async.exec, if_neg h]
  cases b (.createProposal d.title d.description d.proposer) <;>
    simp [Async.exec, Async.bind, Async.tryCatch]
  cases b .getProposals <;> simp [Async.exec, Async.bind, Async.tryCatch]

theorem Draft.complete_iff (d : Draft) :
    d.complete ↔ ¬ (d.title = "" ∨ d.description = "" ∨ d.proposer = "") := by
  simp [Draft.complete, not_or]

/-! ## Failure handling -/

/-- C2. For each of the six operations, from every prior state: when the
collaborator call the operation itself issues is rejected, every cell except
`loading` has, on completion, the value it had before the operation; in
particular a rejected `analyzeProposal` leaves `aiAnalysis` and `activeTab` as
they were. -/
theorem failure_keeps_snapshot (b : Backend) (s : State) :
    (∀ e, b .getProposals = .error e →
      (loadProposals.run b s).state.snapshot = s.snapshot) ∧
    (∀ e, b .getVotingStats = .error e →
      (loadVotingStats.run b s).state.snapshot = s.snapshot) ∧
    (∀ e, s.newProposal.complete →
      b (.createProposal s.newProposal.title s.newProposal.description s.newProposal.proposer)
        = .error e →
      ((handleCreateProposal s.newProposal).run b s).state.snapshot = s.snapshot) ∧
    (∀ proposalId voteChoice e, b (.vote proposalId "current-user.icp" voteChoice) = .error e →
      ((handleVote proposalId voteChoice).run b s).state.snapshot = s.snapshot) ∧
    (∀ proposalId e, b (.analyzeProposal proposalId) = .error e →
      ((handleAnalyzeProposal proposalId).run b s).state.snapshot = s.snapshot ∧
      ((handleAnalyzeProposal proposalId).run b s).state.aiAnalysis = s.aiAnalysis ∧
      ((handleAnalyzeProposal proposalId).run b s).state.activeTab = s.activeTab) ∧
    (∀ e, b .getGovernanceRecommendations = .error e →
      (handleGetRecommendations.run b s).state.snapshot = s.snapshot) := by
  refine ⟨?_, ?_, ?_, ?_, ?_, ?_⟩
  · intro e h
    rw [loadProposals_run, h]
    rfl
  · intro e h
    rw [loadVotingStats_run, h]
  · intro e hd h
    rw [handleCreateProposal_run_complete b s _ ((Draft.complete_iff _).1 hd), h]
    rfl
  · intro proposalId voteChoice e h
    rw [handleVote_run, h]
    rfl
  · intro proposalId e h
    rw [handleAnalyzeProposal_run, h]
    exact ⟨rfl, rfl, rfl⟩
  · intro e h
    rw [handleGetRecommendations_run, h]
    rfl

/-- C2 at a concrete input: with a collaborator that rejects every call, each
of the six operations leaves the sample state's data and navigation cells as
they were. -/
theorem failure_keeps_snapshot_witness :
    (loadProposals.run failingBackend State.sample).state.snapshot = State.sample.snapshot ∧
    (loadVotingStats.run failingBackend State.sample).state.snapshot = State.sample.snapshot ∧
    ((handleCreateProposal State.sample.newProposal).run failingBackend State.sample).state.snapshot
      = State.sample.snapshot ∧
    ((handleVote 0 true).run failingBackend State.sample).state.snapshot = State.sample.snapshot ∧
    ((handleAnalyzeProposal 0).run failingBackend State.sample).state.aiAnalysis
      = "earlier analysis" ∧
    (handleGetRecommendations.run failingBackend State.sample).state.snapshot
      = State.sample.snapshot :=
  have h := failure_keeps_snapshot failingBackend State.sample
  ⟨h.1 "unavailable" rfl, h.2.1 "unavailable" rfl,
    h.2.2.1 "unavailable" (by decide) rfl, h.2.2.2.1 0 true "unavailable" rfl,
    (h.2.2.2.2.1 0 "unavailable" rfl).2.1, h.2.2.2.2.2 "unavailable" rfl⟩

/-- C3. Each operation that sets `loading` to true ends with `loading` false,
from every prior state and whatever the outcome of every call it awaits. -/
theorem loading_always_cleared (b : Backend) (s : State) :
    (loadProposals.run b s).state.loading = false ∧
    (s.newProposal.complete →
      ((handleCreateProposal s.newProposal).run b s).state.loading = false) ∧
    (∀ proposalId voteChoice, ((handleVote proposalId voteChoice).run b s).state.loading = false) ∧
    (∀ proposalId, ((handleAnalyzeProposal proposalId).run b s).state.loading = false) ∧
    (handleGetRecommendations.run b s).state.loading = false := by
  refine ⟨?_, ?_, ?_, ?_, ?_⟩
  · rw [loadProposals_run]
    cases b .getProposals <;> rfl
  · intro hd
    rw [handleCreateProposal_run_complete b s _ ((Draft.complete_iff _).1 hd)]
    cases b (.createProposal s.newProposal.title s.newProposal.description s.newProposal.proposer)
    · rfl
    · cases b .getProposals <;> rfl
  · intro proposalId voteChoice
    rw [handleVote_run]
    cases b (.vote proposalId "current-user.icp" voteChoice)
    · rfl
    · cases b .getProposals <;> rfl
  · intro proposalId
    rw [handleAnalyzeProposal_run]
    cases b (.analyzeProposal proposalId) <;> rfl
  · rw [handleGetRecommendations_run]
    cases b .getGovernanceRecommendations <;> rfl

/-- C3 at a concrete input: started with `loading` already true and a complete
draft, the create handler ends with `loading` false when every call is
rejected, and also when every call resolves. -/
theorem loading_always_cleared_witness :
    ((handleCreateProposal State.sample.newProposal).run failingBackend
      { State.sample with loading := true }).state.loading = false ∧
    ((handleCreateProposal State.sample.newProposal).run (mockBackend 0 7)
      { State.sample with loading := true }).state.loading = false :=
  ⟨(loading_always_cleared failingBackend { State.sample with loading := true }).2.1 (by decide),
    (loading_always_cleared (mockBackend 0 7) { State.sample with loading := true }).2.1
      (by decide)⟩

/-! ## The mutating operations -/

/-- C4. When the `vote` call resolves, `handleVote` issues exactly two
collaborator calls, `vote(proposalId, 'current-user.icp', voteChoice)` and then
`getProposals()`, and when that `getProposals` resolves the cached list on
completion is the list it returned. -/
theorem handleVote_reloads (b : Backend) (s : State) (proposalId : Nat) (voteChoice : Bool)
    (ack : Bool) (hvote : b (.vote proposalId "current-user.icp" voteChoice) = .ok ack) :
    ((handleVote proposalId voteChoice).run b s).calls
      = [.vote proposalId "current-user.icp" voteChoice, .getProposals] ∧
    ∀ data, b .getProposals = .ok data →
      ((handleVote proposalId voteChoice).run b s).state.proposals = data := by
  rw [handleVote_run, hvote]
  refine ⟨rfl, ?_⟩
  intro data hdata
  simp only [hdata]

/-- C4 at a concrete input: a yes vote on proposal 0 against the simulated
backend, starting from an empty list. -/
theorem handleVote_reloads_witness :
    ((handleVote 0 true).run (mockBackend 5 7) State.initial).calls
      = [.vote 0 "current-user.icp" true, .getProposals] ∧
    ((handleVote 0 true).run (mockBackend 5 7) State.initial).state.proposals = mockProposals 5 :=
  ⟨(handleVote_reloads (mockBackend 5 7) State.initial 0 true true rfl).1,
    (handleVote_reloads (mockBackend 5 7) State.initial 0 true true rfl).2 (mockProposals 5) rfl⟩

/-- C5. When at least one of the three draft fields is the empty string,
`handleCreateProposal` issues no collaborator call and leaves every cell of the
state, `loading` included, as it was. -/
theorem handleCreateProposal_precondition (b : Backend) (s : State)
    (h : s.newProposal.title = "" ∨ s.newProposal.description = "" ∨ s.newProposal.proposer = "") :
    ((handleCreateProposal s.newProposal).run b s).calls = [] ∧
    ((handleCreateProposal s.newProposal).run b s).state = s := by
  rw [handleCreateProposal_run_incomplete b s _ h]
  exact ⟨rfl, rfl⟩

/-- C5 at a concrete input: a draft with title and description but no
proposer, while `loading` is true. -/
theorem handleCreateProposal_precondition_witness :
    ((handleCreateProposal { title := "Fund audits", description := "Pay for two audits", proposer := "" }).run
      (mockBackend 5 7)
      { State.sample with
        loading := true
        newProposal := { title := "Fund audits", description := "Pay for two audits", proposer := "" } }).calls
      = [] :=
  (handleCreateProposal_precondition (mockBackend 5 7)
    { State.sample with
      loading := true
      newProposal := { title := "Fund audits", description := "Pay for two audits", proposer := "" } }
    (Or.inr (Or.inr rfl))).1

/-- C6. With the three draft fields non-empty, when `createProposal` resolves
and the following `getProposals` resolves with `data`, `handleCreateProposal`
calls `createProposal` with the draft's title, description and proposer (and
then `getProposals`), and on completion `newProposal` is the empty draft,
`proposals` is `data`, `activeTab` is `'proposals'` and `loading` is false. -/
theorem handleCreateProposal_success (b : Backend) (s : State) (newId : Nat)
    (data : List Proposal) (hd : s.newProposal.complete)
    (hcreate : b (.createProposal s.newProposal.title s.newProposal.description
      s.newProposal.proposer) = .ok newId)
    (hload : b .getProposals = .ok data) :
    ((handleCreateProposal s.newProposal).run b s).calls
      = [.createProposal s.newProposal.title s.newProposal.description s.newProposal.proposer,
         .getProposals] ∧
    ((handleCreateProposal s.newProposal).run b s).state.newProposal
      = { title := "", description := "", proposer := "" } ∧
    ((handleCreateProposal s.newProposal).run b s).state.proposals = data ∧
    ((handleCreateProposal s.newProposal).run b s).state.activeTab = "proposals" ∧
    ((handleCreateProposal s.newProposal).run b s).state.loading = false := by
  rw [handleCreateProposal_run_complete b s _ ((Draft.complete_iff _).1 hd), hcreate]
  simp [hload]

/-- C6 at a concrete input: the sample draft submitted to the simulated backend. -/
theorem handleCreateProposal_success_witness :
    ((handleCreateProposal State.sample.newProposal).run (mockBackend 5 7) State.sample).calls
      = [.createProposal "Fund audits" "Pay for two audits" "carol.icp", .getProposals] ∧
    ((handleCreateProposal State.sample.newProposal).run (mockBackend 5 7) State.sample).state.proposals
      = mockProposals 5 ∧
    ((handleCreateProposal State.sample.newProposal).run (mockBackend 5 7) State.sample).state.activeTab
      = "proposals" :=
  have h := handleCreateProposal_success (mockBackend 5 7) State.sample 7 (mockProposals 5)
    (by decide) rfl rfl
  ⟨h.1, h.2.2.1, h.2.2.2.1⟩

/-- C10. When `analyzeProposal(proposalId)` resolves with `text`, on completion
of `handleAnalyzeProposal` the cell `aiAnalysis` is exactly `text`,
`selectedProposal` is `proposalId`, `activeTab` is `'ai-analysis'`, `loading` is
false, and `proposals`, `votingStats`, `aiRecommendations` and `newProposal`
are as before. -/
theorem handleAnalyzeProposal_success (b : Backend) (s : State) (proposalId : Nat)
    (text : String) (h : b (.analyzeProposal proposalId) = .ok text) :
    ((handleAnalyzeProposal proposalId).run b s).state.aiAnalysis = text ∧
    ((handleAnalyzeProposal proposalId).run b s).state.selectedProposal = some proposalId ∧
    ((handleAnalyzeProposal proposalId).run b s).state.activeTab = "ai-analysis" ∧
    ((handleAnalyzeProposal proposalId).run b s).state.loading = false ∧
    ((handleAnalyzeProposal proposalId).run b s).state.proposals = s.proposals ∧
    ((handleAnalyzeProposal proposalId).run b s).state.votingStats = s.votingStats ∧
    ((handleAnalyzeProposal proposalId).run b s).state.aiRecommendations = s.aiRecommendations ∧
    ((handleAnalyzeProposal proposalId).run b s).state.newProposal = s.newProposal := by
  rw [handleAnalyzeProposal_run, h]
  exact ⟨rfl, rfl, rfl, rfl, rfl, rfl, rfl, rfl⟩

/-- C10 at a concrete input: analysing proposal 0 with the simulated backend
replaces the earlier analysis text of the sample state. -/
theorem handleAnalyzeProposal_success_witness :
    ((handleAnalyzeProposal 0).run (mockBackend 5 7) State.sample).state.aiAnalysis
      = mockAnalysisText 0 ∧
    ((handleAnalyzeProposal 0).run (mockBackend 5 7) State.sample).state.selectedProposal
      = some 0 :=
  have h := handleAnalyzeProposal_success (mockBackend 5 7) State.sample 0 (mockAnalysisText 0) rfl
  ⟨h.1, h.2.1⟩

/-! ## Relative-time formatting -/

theorem tmod_nonpos_of_neg (a : Int) (ha : a < 0) : Int.tmod a 86400000 ≤ 0 := by
  cases a with
  | ofNat n => exact absurd ha (by simp)
  | negSucc n =>
    show Int.tmod (Int.negSucc n) (Int.ofNat 86400000) ≤ 0
    simp only [Int.tmod]
    exact Int.neg_nonpos_of_nonneg (Int.ofNat_zero_le _)

/-- The day and hour counts computed on lines 174-175, in terms of floored
integer division: for `0 ≤ diff` the hour count is `diff % 86400000 / 3600000`,
and for `diff < 0` neither count is positive. -/
theorem formatTimeAgo_counts (diff : Int) :
    Int.fdiv diff 86400000 = diff / 86400000 ∧
    (0 ≤ diff → Int.fdiv (Int.tmod diff 86400000) 3600000 = diff % 86400000 / 3600000) ∧
    (diff < 0 → Int.fdiv (Int.tmod diff 86400000) 3600000 ≤ 0) := by
  refine ⟨Int.fdiv_eq_ediv _ (by norm_num), ?_, ?_⟩
  · intro h
    rw [Int.tmod_eq_emod h (by norm_num), Int.fdiv_eq_ediv _ (by norm_num)]
  · intro h
    rw [Int.fdiv_eq_ediv _ (by norm_num)]
    have := tmod_nonpos_of_neg diff h
    omega

/-- The three branches of `formatTimeAgo` by the size of `diff = now - timestamp`. -/
theorem formatTimeAgo_cases (now timestamp : Int) :
    (86400000 ≤ now - timestamp →
      formatTimeAgo now timestamp = toString ((now - timestamp) / 86400000) ++ " day" ++
        (if (now - timestamp) / 86400000 > 1 then "s" else "") ++ " ago") ∧
    (now - timestamp < 86400000 → 3600000 ≤ now - timestamp →
      formatTimeAgo now timestamp = toString ((now - timestamp) / 3600000) ++ " hour" ++
        (if (now - timestamp) / 3600000 > 1 then "s" else "") ++ " ago") ∧
    (now - timestamp < 3600000 → formatTimeAgo now timestamp = "Just now") := by
  obtain ⟨hdays, hpos, hneg⟩ := formatTimeAgo_counts (now - timestamp)
  refine ⟨?_, ?_, ?_⟩
  · intro h
    have hd : (now - timestamp) / 86400000 > 0 := by omega
    simp only [formatTimeAgo, hdays, if_pos hd]
  · intro h1 h2
    have hd : ¬ (now - timestamp) / 86400000 > 0 := by omega
    have hh : (now - timestamp) % 86400000 / 3600000 = (now - timestamp) / 3600000 := by
      rw [Int.emod_eq_of_lt (by omega) h1]
    have hh' : (now - timestamp) / 3600000 > 0 := by omega
    simp only [formatTimeAgo, hdays, hpos (by omega), if_neg hd, hh, if_pos hh']
  · intro h
    have hd : ¬ (now - timestamp) / 86400000 > 0 := by omega
    by_cases h0 : 0 ≤ now - timestamp
    · have hh : ¬ (now - timestamp) % 86400000 / 3600000 > 0 := by
        rw [Int.emod_eq_of_lt h0 (by omega)]
        omega
      simp only [formatTimeAgo, hdays, hpos h0, if_neg hd, if_neg hh]
    · have hh : ¬ Int.fdiv (Int.tmod (now - timestamp) 86400000) 3600000 > 0 := by
        have := hneg (by omega)
        omega
      simp only [formatTimeAgo, hdays, if_neg hd, if_neg hh]

/-- C7. With `d = t0 - t`: for `d ≥ 86,400,000` and `n = floor(d / 86,400,000)`
(which is at least 1) the text is `'1 day ago'` when `n = 1` and `'n days ago'`
when `n > 1`; for `3,600,000 ≤ d < 86,400,000` and `h = floor(d / 3,600,000)`
(at least 1) it is `'1 hour ago'` when `h = 1` and `'h hours ago'` when
`h > 1`; for every other `d`, negative ones included, it is `'Just now'`.  At
`d = 0`, `3,600,000`, `7,200,000`, `86,400,000`, `172,800,000` this gives
`'Just now'`, `'1 hour ago'`, `'2 hours ago'`, `'1 day ago'`, `'2 days ago'`. -/
theorem formatTimeAgo_spec (t0 t : Int) :
    (86400000 ≤ t0 - t →
      1 ≤ (t0 - t) / 86400000 ∧
      ((t0 - t) / 86400000 = 1 → formatTimeAgo t0 t = "1 day ago") ∧
      (1 < (t0 - t) / 86400000 →
        formatTimeAgo t0 t = toString ((t0 - t) / 86400000) ++ " days ago")) ∧
    (t0 - t < 86400000 → 3600000 ≤ t0 - t →
      1 ≤ (t0 - t) / 3600000 ∧
      ((t0 - t) / 3600000 = 1 → formatTimeAgo t0 t = "1 hour ago") ∧
      (1 < (t0 - t) / 3600000 →
        formatTimeAgo t0 t = toString ((t0 - t) / 3600000) ++ " hours ago")) ∧
    (t0 - t < 3600000 → formatTimeAgo t0 t = "Just now") ∧
    formatTimeAgo t0 (t0 - 0) = "Just now" ∧
    formatTimeAgo t0 (t0 - 3600000) = "1 hour ago" ∧
    formatTimeAgo t0 (t0 - 7200000) = "2 hours ago" ∧
    formatTimeAgo t0 (t0 - 86400000) = "1 day ago" ∧
    formatTimeAgo t0 (t0 - 172800000) = "2 days ago" := by
  have key : ∀ d : Int, formatTimeAgo t0 (t0 - d) = formatTimeAgo d 0 := by
    intro d
    simp only [formatTimeAgo, sub_sub_cancel, sub_zero]
  refine ⟨?_, ?_, ?_, ?_, ?_, ?_, ?_, ?_⟩
  · intro h
    have hc := (formatTimeAgo_cases t0 t).1 h
    refine ⟨by omega, ?_, ?_⟩
    · intro h1
      rw [hc, h1]
      rfl
    · intro h1
      rw [hc, if_pos h1, String.append_assoc, String.append_assoc]
      rfl
  · intro h1 h2
    have hc := (formatTimeAgo_cases t0 t).2.1 h1 h2
    refine ⟨by omega, ?_, ?_⟩
    · intro h3
      rw [hc, h3]
      rfl
    · intro h3
      rw [hc, if_pos h3, String.append_assoc, String.append_assoc]
      rfl
  · exact (formatTimeAgo_cases t0 t).2.2
  · rw [key]; rfl
  · rw [key]; rfl
  · rw [key]; rfl
  · rw [key]; rfl
  · rw [key]; rfl

/-- C7 at concrete inputs: a record three days and one millisecond old, one
ninety minutes old, and one stamped in the future. -/
theorem formatTimeAgo_spec_witness :
    formatTimeAgo 1700000000000 (1700000000000 - 259200001) = "3 days ago" ∧
    formatTimeAgo 1700000000000 (1700000000000 - 5400000) = "1 hour ago" ∧
    formatTimeAgo 1700000000000 1700000000500 = "Just now" :=
  ⟨((formatTimeAgo_spec 1700000000000 (1700000000000 - 259200001)).1 (by decide)).2.2
      (by decide),
    ((formatTimeAgo_spec 1700000000000 (1700000000000 - 5400000)).2.1 (by decide)
      (by decide)).2.1 (by decide),
    (formatTimeAgo_spec 1700000000000 1700000000500).2.2.1 (by decide)⟩

/-! ## Vote progress bar -/

/-- C8, evaluated on the code: for every proposal without votes the number
placed in the width of the bar is `NaN`, not 0, and the bar is rendered
regardless (the JSX of lines 305-315 has no condition on the tally).  The
second part is the same fact at one such proposal. -/
theorem voteBarPercent_no_votes :
    (∀ p : Proposal, voteBarPercent { p with votesFor := 0, votesAgainst := 0 } = JSNumber.nan) ∧
    voteBarPercent
      { id := 2, title := "Fund audits", description := "Pay for two audits",
        proposer := "carol.icp", votesFor := 0, votesAgainst := 0, status := "active",
        timestamp := 1700000000000 } ≠ JSNumber.finite 0 := by
  constructor
  · intro p
    rfl
  · intro h
    cases h

/-! ## Startup load -/

/-- C9. From every prior state, when `getProposals` resolves with `data` (any
list, the empty one included) and `getVotingStats` resolves with `stats`, the
startup load sequence, in either completion order, runs to completion and
leaves `proposals` equal to `data`, `votingStats` equal to `stats`, `activeTab`
unchanged and `loading` false.  With the simulated backend the result is the
two seeded proposals with tallies (15,3) and (8,12) and the stats
`{totalProposals: 2, activeProposals: 2, totalVotes: 38}`. -/
theorem startup_load_replaces (s : State) (bp bs : Backend) (data : List Proposal)
    (stats : VotingStats) (hp : bp .getProposals = .ok data)
    (hs : bs .getVotingStats = .ok stats) :
    (∀ run ∈ startupRuns bp bs, ∃ m, steps (Machine.fresh s) run = some m ∧
      m.inFlight = 0 ∧ m.view.proposals = data ∧ m.view.votingStats = stats ∧
      m.view.activeTab = s.activeTab ∧ m.view.loading = false) ∧
    (∀ (now : Int) (roll : Fin 1000),
      ∀ run ∈ startupRuns (mockBackend now roll) (mockBackend now roll),
        ∃ m, steps (Machine.fresh s) run = some m ∧ m.inFlight = 0 ∧
          m.view.proposals = mockProposals now ∧
          m.view.proposals.map Proposal.tally = [(15, 3), (8, 12)] ∧
          m.view.votingStats = { totalProposals := 2, activeProposals := 2, totalVotes := 38 }) := by
  constructor
  · intro run hrun
    simp only [startupRuns, List.mem_cons, List.mem_singleton, List.not_mem_nil, or_false] at hrun
    rcases hrun with rfl | rfl <;>
      simp [steps, step, Machine.fresh, Machine.launch, Machine.inFlight, loadProposals,
        loadVotingStats, Async.call, setLoading, setProposals, setVotingStats, consoleError,
        Async.bind, Async.tryCatch, Async.start, hp, hs]
  · intro now roll run hrun
    simp only [startupRuns, List.mem_cons, List.mem_singleton, List.not_mem_nil, or_false] at hrun
    rcases hrun with rfl | rfl <;>
      simp [steps, step, Machine.fresh, Machine.launch, Machine.inFlight, loadProposals,
        loadVotingStats, Async.call, setLoading, setProposals, setVotingStats, consoleError,
        Async.bind, Async.tryCatch, Async.start, mockBackend, mockProposals, Proposal.tally]

/-- C9 at a concrete input: the component's initial state with the simulated
backend, `getVotingStats` settling first. -/
theorem startup_load_replaces_witness :
    ∃ m, steps (Machine.fresh State.initial)
        [.mount, .settle 1 (mockBackend 5 7), .settle 0 (mockBackend 5 7)] = some m ∧
      m.inFlight = 0 ∧ m.view.proposals = mockProposals 5 ∧
      m.view.votingStats = { totalProposals := 2, activeProposals := 2, totalVotes := 38 } ∧
      m.view.activeTab = "proposals" ∧ m.view.loading = false :=
  (startup_load_replaces State.initial (mockBackend 5 7) (mockBackend 5 7) (mockProposals 5)
    { totalProposals := 2, activeProposals := 2, totalVotes := 38 } rfl rfl).1
    [.mount, .settle 1 (mockBackend 5 7), .settle 0 (mockBackend 5 7)]
    (List.mem_cons_of_mem _ (List.mem_singleton.2 rfl))

/-! ## The busy gate -/

theorem Pending.Finishes.settles {p : Pending} (h : p.Finishes) : p.Settles :=
  fun r s => Or.inl (h r s)

/-- Started as any operation, `loadProposals` sets `loading` and suspends on a
call after which it finishes. -/
theorem loadProposals_start (op : Operation) (s : State) :
    ∃ q : Pending, loadProposals.start op s = ({ s with loading := true }, [q]) ∧
      q.op = op ∧ q.Finishes := by
  refine ⟨_, rfl, rfl, ?_⟩
  intro r s'
  cases r <;> exact ⟨rfl, rfl⟩

theorem loadVotingStats_start (op : Operation) (s : State) :
    ∃ q : Pending, loadVotingStats.start op s = (s, [q]) ∧ q.op = op ∧ q.Neutral := by
  refine ⟨_, rfl, rfl, ?_⟩
  intro r s'
  cases r <;> exact ⟨rfl, rfl⟩

theorem handleAnalyzeProposal_start (op : Operation) (proposalId : Nat) (s : State) :
    ∃ q : Pending, (handleAnalyzeProposal proposalId).start op s = ({ s with loading := true }, [q]) ∧
      q.op = op ∧ q.Settles := by
  refine ⟨_, rfl, rfl, ?_⟩
  intro r s'
  cases r <;> exact Or.inl ⟨rfl, rfl⟩

theorem handleGetRecommendations_start (op : Operation) (s : State) :
    ∃ q : Pending, handleGetRecommendations.start op s = ({ s with loading := true }, [q]) ∧
      q.op = op ∧ q.Settles := by
  refine ⟨_, rfl, rfl, ?_⟩
  intro r s'
  cases r <;> exact Or.inl ⟨rfl, rfl⟩

theorem handleVote_start (op : Operation) (proposalId : Nat) (voteChoice : Bool) (s : State) :
    ∃ q : Pending, (handleVote proposalId voteChoice).start op s = ({ s with loading := true }, [q]) ∧
      q.op = op ∧ q.Settles := by
  refine ⟨_, rfl, rfl, ?_⟩
  intro r s'
  cases r with
  | error e => exact Or.inl ⟨rfl, rfl⟩
  | ok v =>
    refine Or.inr ⟨_, rfl, rfl, ?_, rfl⟩
    intro r2 s2
    cases r2 <;> exact ⟨rfl, rfl⟩

theorem handleCreateProposal_start (op : Operation) (d : Draft) (hd : d.complete) (s : State) :
    ∃ q : Pending, (handleCreateProposal d).start op s = ({ s with loading := true }, [q]) ∧
      q.op = op ∧ q.Settles := by
  have hd' := (Draft.complete_iff d).1 hd
  simp only [handleCreateProposal, if_neg hd']
  refine ⟨_, rfl, rfl, ?_⟩
  intro r s'
  cases r with
  | error e => exact Or.inl ⟨rfl, rfl⟩
  | ok v =>
    refine Or.inr ⟨_, rfl, rfl, ?_, rfl⟩
    intro r2 s2
    cases r2 <;> exact ⟨rfl, rfl⟩



/-- Erasing the element at an index lowers the count of a predicate by one
exactly when the element satisfies it. -/
theorem countP_eraseIdx_add {α : Type} (f : α → Bool) :
    ∀ (l : List α) (i : Nat) (a : α), l.get? i = some a →
      (l.eraseIdx i).countP f + (if f a then 1 else 0) = l.countP f := by
  intro l
  induction l with
  | nil => intro i a h; simp at h
  | cons x xs ih =>
    intro i a h
    cases i with
    | zero =>
      simp only [List.get?_cons_zero, Option.some.injEq] at h
      subst h
      simp [List.countP_cons]
    | succ j =>
      simp only [List.get?_cons_succ] at h
      have := ih j a h
      simp only [List.eraseIdx_cons_succ, List.countP_cons]
      omega

theorem GateInvariant.idle_count {m : Machine} (inv : GateInvariant m)
    (h : m.view.loading = false) : m.gatedInFlight = 0 := by
  have h1 := inv.atMostOne
  have h2 : ¬ m.gatedInFlight = 1 := fun hc => by
    have := inv.loading_iff.2 hc
    rw [h] at this
    exact Bool.noConfusion this
  omega

/-- Changing cells other than `loading` keeps the invariant. -/
theorem GateInvariant.sync {m : Machine} (inv : GateInvariant m) (f : State → State)
    (hf : (f m.view).loading = m.view.loading) : GateInvariant (m.sync f) where
  unmounted := inv.unmounted
  gated := inv.gated
  background := inv.background
  atMostOne := inv.atMostOne
  loading_iff := by
    show (f m.view).loading = true ↔ _
    rw [hf]
    exact inv.loading_iff
  statsAtMostOne := inv.statsAtMostOne

/-- Starting a handler that sets `loading` while `loading` is false keeps the
invariant. -/
theorem GateInvariant.launch_gated {m : Machine} (inv : GateInvariant m)
    (hm : m.mounted = true) (hidle : m.view.loading = false) (op : Operation)
    (hop : op.setsLoading = true) (prog : Async Unit)
    (hprog : ∃ q : Pending, prog.start op m.view = ({ m.view with loading := true }, [q]) ∧
      q.op = op ∧ q.Settles) : GateInvariant (m.launch op prog) := by
  obtain ⟨q, hq, hqop, hqs⟩ := hprog
  have h0 := inv.idle_count hidle
  have hcount : (m.launch op prog).gatedInFlight = 1 := by
    simp only [Machine.gatedInFlight, Machine.launch, hq, List.countP_append,
      List.countP_cons, List.countP_nil, hqop, hop] at h0 ⊢
    simp [h0]
  refine ⟨?_, ?_, ?_, ?_, ?_, ?_⟩
  · intro h
    simp [Machine.launch, hm] at h
  · intro p hp hpo
    simp only [Machine.launch, hq, List.mem_append, List.mem_singleton] at hp
    rcases hp with hp | rfl
    · exact inv.gated p hp hpo
    · exact hqs
  · intro p hp hpo
    simp only [Machine.launch, hq, List.mem_append, List.mem_singleton] at hp
    rcases hp with hp | rfl
    · exact inv.background p hp hpo
    · rw [hqop, hop] at hpo
      exact Bool.noConfusion hpo
  · omega
  · rw [hcount]
    simp [Machine.launch, hq]
  · have := inv.statsAtMostOne
    simp only [Machine.statsInFlight, Machine.launch, hq, List.countP_append,
      List.countP_cons, List.countP_nil, hqop, hop] at this ⊢
    simpa using this



/-- The mount effect establishes the invariant: `loadProposals` holds the gate
and `loadVotingStats` runs beside it. -/
theorem GateInvariant.mount {m : Machine} (inv : GateInvariant m) (hm : m.mounted = false) :
    GateInvariant (({ m with mounted := true }.launch .loadProposals loadProposals).launch
      .loadVotingStats loadVotingStats) := by
  have hnil := inv.unmounted hm
  obtain ⟨q1, hq1, hq1op, hq1f⟩ := loadProposals_start .loadProposals m.view
  obtain ⟨q2, hq2, hq2op, hq2n⟩ :=
    loadVotingStats_start .loadVotingStats { m.view with loading := true }
  have hl : (({ m with mounted := true }.launch .loadProposals loadProposals).launch
      .loadVotingStats loadVotingStats)
      = { view := { m.view with loading := true }, mounted := true, inflight := [q1, q2] } := by
    simp [Machine.launch, hq1, hq2, hnil]
  rw [hl]
  refine ⟨?_, ?_, ?_, ?_, ?_, ?_⟩
  · intro h
    exact Bool.noConfusion h
  · intro p hp hpo
    simp only [List.mem_cons, List.mem_singleton, List.not_mem_nil, or_false] at hp
    rcases hp with rfl | rfl
    · exact hq1f.settles
    · rw [hq2op] at hpo
      exact Bool.noConfusion hpo
  · intro p hp hpo
    simp only [List.mem_cons, List.mem_singleton, List.not_mem_nil, or_false] at hp
    rcases hp with rfl | rfl
    · rw [hq1op] at hpo
      exact Bool.noConfusion hpo
    · exact hq2n
  · simp [Machine.gatedInFlight, hq1op, hq2op, Operation.setsLoading]
  · simp [Machine.gatedInFlight, hq1op, hq2op, Operation.setsLoading]
  · simp [Machine.statsInFlight, hq1op, hq2op, Operation.setsLoading]

/-- Settling the call of a handler in flight keeps the invariant. -/
theorem GateInvariant.settle {m : Machine} (inv : GateInvariant m) (index : Nat)
    (answer : Backend) (p : Pending) (hp : m.inflight.get? index = some p) :
    GateInvariant ({ m with inflight := m.inflight.eraseIdx index }.launch p.op
      (p.resume (answer p.call))) := by
  have hmem : p ∈ m.inflight := List.get?_mem hp
  have hmounted : m.mounted = true := by
    cases hmt : m.mounted with
    | true => rfl
    | false =>
      have := inv.unmounted hmt
      rw [this] at hmem
      cases hmem
  have hg := countP_eraseIdx_add (fun p => p.op.setsLoading) m.inflight index p hp
  have hb := countP_eraseIdx_add (fun p => !p.op.setsLoading) m.inflight index p hp
  have h1 := inv.atMostOne
  have h2 := inv.statsAtMostOne
  have hiff := inv.loading_iff
  simp only [Machine.gatedInFlight, Machine.statsInFlight] at h1 h2 hiff
  cases hop : p.op.setsLoading with
  | false =>
    obtain ⟨hnone, hload⟩ := inv.background p hmem hop (answer p.call) m.view
    simp only [hop, Bool.false_eq_true, if_false, Bool.not_false, if_true, Nat.add_zero] at hg hb
    refine ⟨?_, ?_, ?_, ?_, ?_, ?_⟩
    · intro h
      simp [Machine.launch, hmounted] at h
    · intro q hq hqo
      simp only [Machine.launch, hnone, List.append_nil] at hq
      exact inv.gated q (List.mem_of_mem_eraseIdx hq) hqo
    · intro q hq hqo
      simp only [Machine.launch, hnone, List.append_nil] at hq
      exact inv.background q (List.mem_of_mem_eraseIdx hq) hqo
    · simp only [Machine.gatedInFlight, Machine.launch, hnone, List.append_nil]
      omega
    · simp only [Machine.gatedInFlight, Machine.launch, hnone, List.append_nil, hload, hg]
      exact hiff
    · simp only [Machine.statsInFlight, Machine.launch, hnone, List.append_nil]
      omega
  | true =>
    simp only [hop, if_true, Bool.not_true, Bool.false_eq_true, if_false, Nat.add_zero] at hg hb
    have herase : (m.inflight.eraseIdx index).countP (fun p => p.op.setsLoading) = 0 := by omega
    rcases inv.gated p hmem hop (answer p.call) m.view with ⟨hnone, hload⟩ | ⟨q, hq, hqop, hqf, hload⟩
    · refine ⟨?_, ?_, ?_, ?_, ?_, ?_⟩
      · intro h
        simp [Machine.launch, hmounted] at h
      · intro q hq hqo
        simp only [Machine.launch, hnone, List.append_nil] at hq
        exact inv.gated q (List.mem_of_mem_eraseIdx hq) hqo
      · intro q hq hqo
        simp only [Machine.launch, hnone, List.append_nil] at hq
        exact inv.background q (List.mem_of_mem_eraseIdx hq) hqo
      · simp only [Machine.gatedInFlight, Machine.launch, hnone, List.append_nil]
        omega
      · simp only [Machine.gatedInFlight, Machine.launch, hnone, List.append_nil, hload, herase]
        simp
      · simp only [Machine.statsInFlight, Machine.launch, hnone, List.append_nil]
        omega
    · have hqg : q.op.setsLoading = true := by rw [hqop, hop]
      refine ⟨?_, ?_, ?_, ?_, ?_, ?_⟩
      · intro h
        simp [Machine.launch, hmounted] at h
      · intro q' hq' hqo
        simp only [Machine.launch, hq, List.mem_append, List.mem_singleton] at hq'
        rcases hq' with hq' | rfl
        · exact inv.gated q' (List.mem_of_mem_eraseIdx hq') hqo
        · exact hqf.settles
      · intro q' hq' hqo
        simp only [Machine.launch, hq, List.mem_append, List.mem_singleton] at hq'
        rcases hq' with hq' | rfl
        · exact inv.background q' (List.mem_of_mem_eraseIdx hq') hqo
        · rw [hqg] at hqo
          exact Bool.noConfusion hqo
      · simp only [Machine.gatedInFlight, Machine.launch, hq, List.countP_append,
          List.countP_cons, List.countP_nil, hqg, herase]
        simp
      · simp only [Machine.gatedInFlight, Machine.launch, hq, List.countP_append,
          List.countP_cons, List.countP_nil, hqg, herase, hload]
        simp
      · simp only [Machine.statsInFlight, Machine.launch, hq, List.countP_append,
          List.countP_cons, List.countP_nil, hqg]
        simp only [Bool.not_true, Bool.false_eq_true, if_false, Nat.add_zero]
        omega



/-- Every event keeps the invariant, provided an AI Insights click comes only
while `loading` is false. -/
theorem GateInvariant.step {m m' : Machine} (inv : GateInvariant m) (e : Event)
    (hallowed : insightsWhenIdle m e) (hstep : step m e = some m') : GateInvariant m' := by
  cases e with
  | mount =>
    simp only [DAOGovernanceAgent.step] at hstep
    split at hstep
    · cases hstep
    · rename_i hm
      cases hstep
      exact inv.mount (by simpa using hm)
  | tabProposals =>
    simp only [DAOGovernanceAgent.step] at hstep
    split at hstep
    · cases hstep
      exact inv.sync _ rfl
    · cases hstep
  | tabCreate =>
    simp only [DAOGovernanceAgent.step] at hstep
    split at hstep
    · cases hstep
      exact inv.sync _ rfl
    · cases hstep
  | aiInsights =>
    simp only [DAOGovernanceAgent.step] at hstep
    split at hstep
    · rename_i hm
      cases hstep
      exact inv.launch_gated hm (hallowed rfl) .recommend rfl _
        (handleGetRecommendations_start _ _)
    · cases hstep
  | tabAnalysis =>
    simp only [DAOGovernanceAgent.step] at hstep
    split at hstep
    · cases hstep
      exact inv.sync _ rfl
    · cases hstep
  | voteYes proposalId =>
    simp only [DAOGovernanceAgent.step] at hstep
    split at hstep
    · rename_i hg
      simp only [Bool.and_eq_true, Bool.not_eq_true'] at hg
      cases hstep
      exact inv.launch_gated hg.1.1 hg.2 .vote rfl _ (handleVote_start _ _ _ _)
    · cases hstep
  | voteNo proposalId =>
    simp only [DAOGovernanceAgent.step] at hstep
    split at hstep
    · rename_i hg
      simp only [Bool.and_eq_true, Bool.not_eq_true'] at hg
      cases hstep
      exact inv.launch_gated hg.1.1 hg.2 .vote rfl _ (handleVote_start _ _ _ _)
    · cases hstep
  | aiAnalyze proposalId =>
    simp only [DAOGovernanceAgent.step] at hstep
    split at hstep
    · rename_i hg
      simp only [Bool.and_eq_true, Bool.not_eq_true'] at hg
      cases hstep
      exact inv.launch_gated hg.1.1 hg.2 .analyze rfl _ (handleAnalyzeProposal_start _ _ _)
    · cases hstep
  | editTitle value =>
    simp only [DAOGovernanceAgent.step] at hstep
    split at hstep
    · cases hstep
      exact inv.sync _ rfl
    · cases hstep
  | editDescription value =>
    simp only [DAOGovernanceAgent.step] at hstep
    split at hstep
    · cases hstep
      exact inv.sync _ rfl
    · cases hstep
  | editProposer value =>
    simp only [DAOGovernanceAgent.step] at hstep
    split at hstep
    · cases hstep
      exact inv.sync _ rfl
    · cases hstep
  | createProposal =>
    simp only [DAOGovernanceAgent.step] at hstep
    split at hstep
    · rename_i hg
      simp only [Bool.and_eq_true, Bool.not_eq_true', State.createDisabled, Bool.or_eq_false_iff,
        decide_eq_false_iff_not, decide_eq_true_eq] at hg
      cases hstep
      exact inv.launch_gated hg.1.1 hg.2.1.1.1 .create rfl _
        (handleCreateProposal_start _ _ ⟨hg.2.1.1.2, hg.2.1.2, hg.2.2⟩ _)
    · cases hstep
  | settle index answer =>
    simp only [DAOGovernanceAgent.step] at hstep
    split at hstep
    · cases hstep
    · rename_i p hp
      cases hstep
      exact inv.settle index answer p hp

theorem GateInvariant.initial : GateInvariant Machine.initial where
  unmounted := fun _ => rfl
  gated := fun p hp => by cases hp
  background := fun p hp => by cases hp
  atMostOne := by decide
  loading_iff := by decide
  statsAtMostOne := by decide

theorem Machine.inFlight_eq (m : Machine) : m.inFlight = m.gatedInFlight + m.statsInFlight := by
  simp only [Machine.inFlight, Machine.gatedInFlight, Machine.statsInFlight]
  rw [List.length_eq_countP_add_countP (fun p => p.op.setsLoading)]
  congr 2
  funext p
  simp

/-- C1 as stated fails: right after the mount effect, which any run starts
with, `loadProposals` and `loadVotingStats` are both in flight; and since the
AI Insights button is never disabled, a click on it at that moment puts a
second handler that sets `loading` in flight. -/
theorem busy_gate_counterexample :
    (¬ ∀ m, Reachable anyEvent m → m.inFlight ≤ 1) ∧
    (∃ m, steps Machine.initial [.mount] = some m ∧ Reachable anyEvent m ∧ m.inFlight = 2) ∧
    (∃ m, steps Machine.initial [.mount, .aiInsights] = some m ∧ Reachable anyEvent m ∧
      m.gatedInFlight = 2 ∧ m.inFlight = 3) := by
  have r1 : Reachable anyEvent _ := Reachable.next .mount .initial trivial rfl
  have r2 : Reachable anyEvent _ := Reachable.next .aiInsights r1 trivial rfl
  refine ⟨?_, ⟨_, rfl, r1, rfl⟩, ⟨_, rfl, r2, rfl, rfl⟩⟩
  intro h
  exact absurd (h _ r1) (by decide)

/-- C1, amended.  In every run in which the AI Insights button is clicked only
while `loading` is false, every reachable state has at most one handler in
flight among the operations that set `loading` (load proposals, create, vote,
analyze, recommend), `loading` is true exactly when there is one, and beside
it at most the `loadVotingStats` of the mount effect is in flight, so at most
two operations overall. -/
theorem busy_gate (m : Machine) (h : Reachable insightsWhenIdle m) :
    m.gatedInFlight ≤ 1 ∧ (m.view.loading = true ↔ m.gatedInFlight = 1) ∧
    m.statsInFlight ≤ 1 ∧ m.inFlight ≤ 2 := by
  have inv : GateInvariant m := by
    induction h with
    | initial => exact GateInvariant.initial
    | next e _ hallowed hstep ih => exact ih.step e hallowed hstep
  have h1 := inv.atMostOne
  have h2 := inv.statsAtMostOne
  have h3 := m.inFlight_eq
  exact ⟨h1, inv.loading_iff, h2, by omega⟩



/-- C1 amended, at a concrete run: mount, the proposals load settles with the
simulated backend, then a yes vote on proposal 0 and, once that vote and its
reload have settled, an AI Insights click.  The state reached has the
recommendation handler and the stats load in flight, and `loading` is true. -/
theorem busy_gate_witness :
    ∃ m, steps Machine.initial
        [.mount, .settle 0 (mockBackend 5 7), .voteYes 0, .settle 1 (mockBackend 5 7),
          .settle 1 (mockBackend 5 7), .aiInsights] = some m ∧
      Reachable insightsWhenIdle m ∧ m.inFlight = 2 ∧ m.view.loading = true ∧
      (m.gatedInFlight ≤ 1 ∧ (m.view.loading = true ↔ m.gatedInFlight = 1) ∧
        m.statsInFlight ≤ 1 ∧ m.inFlight ≤ 2) :=
  have r0 : Reachable insightsWhenIdle Machine.initial := Reachable.initial
  have r1 : Reachable insightsWhenIdle _ :=
    Reachable.next .mount r0 (fun h => Event.noConfusion h) rfl
  have r2 : Reachable insightsWhenIdle _ :=
    Reachable.next (.settle 0 (mockBackend 5 7)) r1 (fun h => Event.noConfusion h) rfl
  have r3 : Reachable insightsWhenIdle _ :=
    Reachable.next (.voteYes 0) r2 (fun h => Event.noConfusion h) rfl
  have r4 : Reachable insightsWhenIdle _ :=
    Reachable.next (.settle 1 (mockBackend 5 7)) r3 (fun h => Event.noConfusion h) rfl
  have r5 : Reachable insightsWhenIdle _ :=
    Reachable.next (.settle 1 (mockBackend 5 7)) r4 (fun h => Event.noConfusion h) rfl
  have r6 : Reachable insightsWhenIdle _ :=
    Reachable.next .aiInsights r5 (fun _ => rfl) rfl
  ⟨_, rfl, r6, rfl, rfl, busy_gate _ r6⟩

/-! ## Create with a failed reload -/

/-- C11. With the three draft fields non-empty, when `createProposal` resolves
but the `getProposals` call of the nested reload is rejected,
`handleCreateProposal` still completes, having issued `createProposal` and then
`getProposals`: `newProposal` is reset to empty strings, `activeTab` is
`'proposals'`, `proposals` keeps the value it had before the operation and
`loading` is false.  The rejection is caught inside `loadProposals`: the
statement after the reload (line 129) has run and the handler does not throw. -/
theorem handleCreateProposal_failed_reload (b : Backend) (s : State) (newId : Nat) (e : Err)
    (hd : s.newProposal.complete)
    (hcreate : b (.createProposal s.newProposal.title s.newProposal.description
      s.newProposal.proposer) = .ok newId)
    (hload : b .getProposals = .error e) :
    ((handleCreateProposal s.newProposal).run b s).calls
      = [.createProposal s.newProposal.title s.newProposal.description s.newProposal.proposer,
         .getProposals] ∧
    ((handleCreateProposal s.newProposal).run b s).threw = false ∧
    ((handleCreateProposal s.newProposal).run b s).state.newProposal
      = { title := "", description := "", proposer := "" } ∧
    ((handleCreateProposal s.newProposal).run b s).state.activeTab = "proposals" ∧
    ((handleCreateProposal s.newProposal).run b s).state.proposals = s.proposals ∧
    ((handleCreateProposal s.newProposal).run b s).state.loading = false := by
  rw [handleCreateProposal_run_complete b s _ ((Draft.complete_iff _).1 hd), hcreate]
  simp [hload]

/-- C11 at a concrete input: the sample draft, submitted from the create tab
with two proposals cached, to a backend that accepts the proposal and then
rejects the reload. -/
theorem handleCreateProposal_failed_reload_witness :
    State.sample.activeTab = "create" ∧
    ((handleCreateProposal State.sample.newProposal).run reloadFailingBackend
      State.sample).state.newProposal = { title := "", description := "", proposer := "" } ∧
    ((handleCreateProposal State.sample.newProposal).run reloadFailingBackend
      State.sample).state.activeTab = "proposals" ∧
    ((handleCreateProposal State.sample.newProposal).run reloadFailingBackend
      State.sample).state.proposals = mockProposals 1700000000000 ∧
    ((handleCreateProposal State.sample.newProposal).run reloadFailingBackend
      State.sample).state.loading = false :=
  have h := handleCreateProposal_failed_reload reloadFailingBackend State.sample 7 "unavailable"
    (by decide) rfl rfl
  ⟨rfl, h.2.2.1, h.2.2.2.1, h.2.2.2.2.1, h.2.2.2.2.2⟩

end DAOGovernanceAgent
